import Mathlib

/-!
Verification of the natural-language specification of the visible fragment of
the botorch repository: the public export module
`botorch/acquisition/multi_objective/__init__.py` and the contextual
multi-task GP model `LCEMGP` / `FixedNoiseLCEMGP` exercised by
`test/models/test_contextual_multioutput.py`.
-/

set_option autoImplicit false

namespace Botorch

/-! ### The multi-objective acquisition package export module

Shallow embedding of `botorch/acquisition/multi_objective/__init__.py`:
each `from <module> import <names>` statement becomes a pair of the module
path and the list of imported names, in source order; the `__all__` list
becomes a list of strings in source order. -/

/-- The import statements of `botorch/acquisition/multi_objective/__init__.py`,
as (module path, imported names) pairs, in source order. -/
def moduleImports : List (String × List String) :=
  [ ("botorch.acquisition.multi_objective.analytic",
      ["ExpectedHypervolumeImprovement",
       "MultiObjectiveAnalyticAcquisitionFunction"]),
    ("botorch.acquisition.multi_objective.hypervolume_knowledge_gradient",
      ["qHypervolumeKnowledgeGradient",
       "qMultiFidelityHypervolumeKnowledgeGradient"]),
    ("botorch.acquisition.multi_objective.max_value_entropy_search",
      ["qMultiObjectiveMaxValueEntropy"]),
    ("botorch.acquisition.multi_objective.monte_carlo",
      ["MultiObjectiveMCAcquisitionFunction",
       "qExpectedHypervolumeImprovement",
       "qNoisyExpectedHypervolumeImprovement"]),
    ("botorch.acquisition.multi_objective.multi_fidelity",
      ["MOMF"]),
    ("botorch.acquisition.multi_objective.objective",
      ["IdentityMCMultiOutputObjective",
       "MCMultiOutputObjective",
       "UnstandardizeMCMultiOutputObjective",
       "WeightedMCMultiOutputObjective"]),
    ("botorch.acquisition.multi_objective.utils",
      ["get_default_partitioning_alpha",
       "prune_inferior_points_multi_objective"]) ]

/-- The `__all__` list of `botorch/acquisition/multi_objective/__init__.py`,
in source order. -/
def allList : List String :=
  [ "get_default_partitioning_alpha",
    "prune_inferior_points_multi_objective",
    "qExpectedHypervolumeImprovement",
    "qHypervolumeKnowledgeGradient",
    "qMultiFidelityHypervolumeKnowledgeGradient",
    "qNoisyExpectedHypervolumeImprovement",
    "MOMF",
    "qMultiObjectiveMaxValueEntropy",
    "ExpectedHypervolumeImprovement",
    "IdentityMCMultiOutputObjective",
    "MCMultiOutputObjective",
    "MultiObjectiveAnalyticAcquisitionFunction",
    "MultiObjectiveMCAcquisitionFunction",
    "UnstandardizeMCMultiOutputObjective",
    "WeightedMCMultiOutputObjective" ]

/-- All names bound by the module's import statements, in source order. -/
def importedNames : List String := (moduleImports.map Prod.snd).flatten

/-- A name is public in Python when it does not start with an underscore. -/
def isPublicName (s : String) : Bool := !(s.data.head? == some '_')

/-- Export-list consistency of the module: every name in `__all__` is bound by
exactly one import statement, and every public imported name appears in
`__all__`. -/
def exportConsistent : Bool :=
  allList.all (fun n => importedNames.count n == 1) &&
  importedNames.all (fun n => !isPublicName n || allList.contains n)

/-! ### Contextual multi-output GP model (LCEMGP)

The model module `botorch/models/contextual_multioutput.py` is not among the
visible sources; only its test `test/models/test_contextual_multioutput.py`
is. Following the spec ("a GP regression model with per-task categorical
embeddings that produces a context covariance via an embedding lookup and
kernel evaluation"), the model is embedded at the level of tensor shapes and
distribution kinds, with numeric entries as rationals and the learned kernel
and embedding initialisation as parameters. -/

/-- Tensor dtype of the training data. -/
inductive DType
  | float
  | double
deriving DecidableEq

/-- A 2-dimensional tensor of shape [k, m], modelled as a list of k rows of
length m each. -/
def isTensorOfShape (t : List (List Rat)) (k m : Nat) : Prop :=
  t.length = k ∧ ∀ r ∈ t, r.length = m

instance (t : List (List Rat)) (k m : Nat) : Decidable (isTensorOfShape t k m) := by
  unfold isTensorOfShape
  infer_instance

/-- Modelled from the spec: a learned categorical embedding table (one row of
weights per category), standing in for the torch.nn.Embedding layers of the
missing module botorch/models/contextual_multioutput.py. -/
structure Embedding where
  numEmbeddings : Nat
  embeddingDim : Nat
  weight : List (List Rat)

/-- An embedding table of the given size whose (learned) weights are supplied
by an arbitrary initialisation function. -/
def mkEmbedding (init : Nat → Nat → Rat) (n d : Nat) : Embedding :=
  ⟨n, d, (List.range n).map (fun r => (List.range d).map (fun c => init r c))⟩

/-- Number of distinct values in a list (torch unique). -/
def nUnique (xs : List Nat) : Nat := xs.dedup.length

/-- Column i of a 2-d integer tensor modelled as a list of rows. -/
def column (t : List (List Nat)) (i : Nat) : List Nat := t.map (fun r => r.getD i 0)

/-- Modelled from the spec: the LCEMGP contextual multi-task GP model of the
missing module botorch/models/contextual_multioutput.py, reduced to the data
the claims speak about: the number of distinct task/context indices in the
training data, the categorical context feature tensor, the optional
pre-trained context embedding features, the embedding dimensions, the learned
embedding layers, and the task covariance kernel over embedding vectors. -/
structure LCEMGP where
  dtype : DType
  hasTrainYvar : Bool
  numTasks : Nat
  context_cat_feature : List (List Nat)
  context_emb_feature : Option (List (List Rat))
  emb_dims : List (Nat × Nat)
  emb_layers : List Embedding
  taskCovar : List Rat → List Rat → Rat

/-- Modelled from the spec: the LCEMGP constructor. The distinct task indices
of the training data (in order of appearance) become the tasks; the default
categorical context feature is the [numTasks, 1] tensor of task indices; the
embedding dimension of each categorical feature defaults to 1 when no
embs_dim_list is given; emb_dims pairs the number of distinct values of each
categorical column with its embedding dimension; one embedding layer is
created per categorical column. Learned weights and the task covariance
kernel are supplied as parameters (init, kern). -/
def mkLCEMGP (dtype : DType) (taskIndices : List Nat) (hasYvar : Bool)
    (embs_dim_list : Option (List Nat)) (cef : Option (List (List Rat)))
    (init : Nat → Nat → Nat → Rat) (kern : List Rat → List Rat → Rat) : LCEMGP :=
  let numTasks := taskIndices.dedup.length
  let ccf := (List.range numTasks).map (fun i => [i])
  let nCatFeatures := 1
  let dims := embs_dim_list.getD (List.replicate nCatFeatures 1)
  let embDims := (List.range nCatFeatures).map
      (fun i => (nUnique (column ccf i), dims.getD i 1))
  let layers := embDims.enum.map (fun p => mkEmbedding (init p.1) p.2.1 p.2.2)
  ⟨dtype, hasYvar, numTasks, ccf, cef, embDims, layers, kern⟩

/-- Modelled from the spec: LCEMGP._task_embeddings. Each categorical column
is looked up in its embedding layer; the per-layer embeddings are
concatenated along dim 1, and the pre-trained context embedding features, if
any, are appended to each row. -/
def LCEMGP._task_embeddings (m : LCEMGP) : List (List Rat) :=
  let base := m.context_cat_feature.map (fun row =>
    (m.emb_layers.enum.map (fun p => p.2.weight.getD (row.getD p.1 0) [])).flatten)
  match m.context_emb_feature with
  | none => base
  | some f => base.zipWith (fun r s => r ++ s) f

/-- Modelled from the spec: LCEMGP._eval_context_covar, the context covariance
obtained by evaluating the task covariance kernel pairwise on the task
embeddings. -/
def LCEMGP._eval_context_covar (m : LCEMGP) : List (List Rat) :=
  let embs := m._task_embeddings
  embs.map (fun x => embs.map (fun y => m.taskCovar x y))

/-- The kind (and batch shape data) of a gpytorch predictive distribution. -/
inductive GPDistribution
  | multitaskMultivariateNormal (n q : Nat)
  | multivariateNormal (n : Nat)
deriving DecidableEq

/-- Whether a distribution is a MultitaskMultivariateNormal. -/
def GPDistribution.isMultitask : GPDistribution → Bool
  | .multitaskMultivariateNormal _ _ => true
  | .multivariateNormal _ => false

/-- A botorch posterior wrapping a gpytorch distribution. -/
structure GPyTorchPosterior where
  distribution : GPDistribution
deriving DecidableEq

/-- Modelled from the spec: LCEMGP.posterior at nPoints new inputs. With no
output_indices the posterior distribution is a MultitaskMultivariateNormal
over all numTasks outputs; with output_indices selecting a single output it
is a single-output MultivariateNormal. -/
def LCEMGP.posterior (m : LCEMGP) (nPoints : Nat)
    (outputIndices : Option (List Nat)) : GPyTorchPosterior :=
  match outputIndices with
  | none => ⟨.multitaskMultivariateNormal nPoints m.numTasks⟩
  | some idxs =>
      if idxs.length = 1 then ⟨.multivariateNormal nPoints⟩
      else ⟨.multitaskMultivariateNormal nPoints idxs.length⟩

/-- Modelled from the spec: calling the model on test inputs that carry the
task feature column yields a (joint, single-output) MultivariateNormal. -/
def LCEMGP.forward (_m : LCEMGP) (testX : List (List Rat)) : GPDistribution :=
  .multivariateNormal testX.length

/-- Modelled from the spec: an ExactMarginalLogLikelihood over a model's
likelihood. -/
structure ExactMarginalLogLikelihood where
  model : LCEMGP

/-- Modelled from the spec: the fit_gpytorch_mll exact marginal log-likelihood
fitting procedure of the missing module botorch/fit.py. Its autodiff-based
optimisation is outside the embedding; the modelled behaviour is that fitting
returns the fitted mll without error. -/
def fit_gpytorch_mll (mll : ExactMarginalLogLikelihood) :
    Except String ExactMarginalLogLikelihood :=
  .ok mll

/-- The Python classes the model claims speak about. -/
inductive ModelClass
  | gp
  | exactGP
  | multiTaskGP
  | lcemGP
  | fixedNoiseLCEMGP
deriving DecidableEq

/-- Modelled from the spec: the superclass chain of each model class
("a contextual multi-task Gaussian process model"): LCEMGP subclasses
MultiTaskGP, and FixedNoiseLCEMGP subclasses LCEMGP. -/
def parentClasses : ModelClass → List ModelClass
  | .gp => []
  | .exactGP => [.gp]
  | .multiTaskGP => [.exactGP, .gp]
  | .lcemGP => [.multiTaskGP, .exactGP, .gp]
  | .fixedNoiseLCEMGP => [.lcemGP, .multiTaskGP, .exactGP, .gp]

/-- Python isinstance on the modelled class hierarchy. -/
def isInstanceOf (c d : ModelClass) : Bool := c == d || (parentClasses c).contains d

/-- A Python warning: its category and message. -/
structure Warning where
  category : String
  message : String

/-- Whether the character list b occurs at the start of a. -/
def beginsWith : List Char → List Char → Bool
  | _, [] => true
  | [], _ :: _ => false
  | a :: as, b :: bs => a == b && beginsWith as bs

/-- Whether the character list b occurs contiguously somewhere in a. -/
def hasSublist : List Char → List Char → Bool
  | _, [] => true
  | [], _ :: _ => false
  | a :: as, b :: bs => beginsWith (a :: as) (b :: bs) || hasSublist as (b :: bs)

/-- Whether sub occurs as a substring of s. -/
def containsSubstr (s sub : String) : Bool := hasSublist s.data sub.data

/-- Modelled from the spec: the deprecation warning emitted by the
FixedNoiseLCEMGP constructor of the missing module
botorch/models/contextual_multioutput.py. -/
def fixedNoiseLCEMGPDeprecationWarning : Warning :=
  ⟨"DeprecationWarning",
   "FixedNoiseLCEMGP has been deprecated and will be removed; use LCEMGP with train_Yvar instead."⟩

/-- Modelled from the spec: the FixedNoiseLCEMGP constructor. It emits the
deprecation warning and builds an LCEMGP with fixed observation noise. -/
def mkFixedNoiseLCEMGP (dtype : DType) (taskIndices : List Nat)
    (embs_dim_list : Option (List Nat)) (cef : Option (List (List Rat)))
    (init : Nat → Nat → Nat → Rat) (kern : List Rat → List Rat → Rat) :
    Warning × LCEMGP :=
  (fixedNoiseLCEMGPDeprecationWarning,
   mkLCEMGP dtype taskIndices true embs_dim_list cef init kern)

end Botorch

namespace Botorch

/-! ### Helper lemmas -/

theorem getD_map_range {α : Type} (f : Nat → α) (d : α) {n i : Nat} (h : i < n) :
    ((List.range n).map f).getD i d = f i := by
  rw [List.getD_eq_getElem?_getD, List.getElem?_map, List.getElem?_range h]
  rfl

theorem column_default (n : Nat) :
    column ((List.range n).map (fun i => [i])) 0 = List.range n := by
  unfold column
  rw [List.map_map]
  rw [show ((fun (r : List Nat) => r.getD 0 0) ∘ fun i => [i]) = fun i => i from rfl]
  exact List.map_id' _

theorem nUnique_range (n : Nat) : nUnique (List.range n) = n := by
  simp [nUnique, List.Nodup.dedup (List.nodup_range n)]

theorem mkLCEMGP_eq (dt : DType) (ti : List Nat) (yv : Bool)
    (edl : Option (List Nat)) (cef : Option (List (List Rat)))
    (init : Nat → Nat → Nat → Rat) (kern : List Rat → List Rat → Rat) :
    mkLCEMGP dt ti yv edl cef init kern =
      ⟨dt, yv, ti.dedup.length, (List.range ti.dedup.length).map (fun i => [i]), cef,
       [(ti.dedup.length, (edl.getD [1]).getD 0 1)],
       [mkEmbedding (init 0) ti.dedup.length ((edl.getD [1]).getD 0 1)], kern⟩ := by
  simp only [mkLCEMGP]
  rw [show List.range 1 = [0] from rfl]
  simp [column_default, nUnique_range, List.enum, List.enumFrom]

theorem te_base (n e : Nat) (g : Nat → Nat → Rat) :
    ((List.range n).map (fun i => [i])).map (fun row =>
        (([mkEmbedding g n e].enum).map
          (fun p => p.2.weight.getD (row.getD p.1 0) [])).flatten)
      = (List.range n).map (fun i => (List.range e).map (g i)) := by
  rw [List.map_map]
  apply List.map_congr_left
  intro i hi
  simp only [Function.comp, List.enum, List.enumFrom, List.map, List.flatten,
    List.append_nil, List.getD_cons_zero, mkEmbedding]
  exact getD_map_range _ _ (List.mem_range.mp hi)

theorem te_default (dt : DType) (ti : List Nat) (yv : Bool)
    (edl : Option (List Nat)) (init : Nat → Nat → Nat → Rat)
    (kern : List Rat → List Rat → Rat) :
    (mkLCEMGP dt ti yv edl none init kern)._task_embeddings
      = (List.range ti.dedup.length).map
          (fun i => (List.range ((edl.getD [1]).getD 0 1)).map (init 0 i)) := by
  rw [mkLCEMGP_eq]
  unfold LCEMGP._task_embeddings
  exact te_base _ _ _

theorem te_cef (dt : DType) (ti : List Nat) (yv : Bool)
    (edl : Option (List Nat)) (f : List (List Rat))
    (init : Nat → Nat → Nat → Rat) (kern : List Rat → List Rat → Rat) :
    (mkLCEMGP dt ti yv edl (some f) init kern)._task_embeddings
      = ((List.range ti.dedup.length).map
          (fun i => (List.range ((edl.getD [1]).getD 0 1)).map (init 0 i))).zipWith
          (fun r s => r ++ s) f := by
  rw [mkLCEMGP_eq]
  unfold LCEMGP._task_embeddings
  rw [te_base]

theorem shape_grid (n e : Nat) (g : Nat → List Rat) (h : ∀ i, (g i).length = e) :
    isTensorOfShape ((List.range n).map g) n e := by
  constructor
  · simp
  · intro r hr
    obtain ⟨i, _, rfl⟩ := List.mem_map.mp hr
    exact h i

theorem zipWith_append_shape {a b : List (List Rat)} {k p q : Nat}
    (ha : isTensorOfShape a k p) (hb : isTensorOfShape b k q) :
    isTensorOfShape (a.zipWith (fun r s => r ++ s) b) k (p + q) := by
  induction a generalizing b k with
  | nil =>
      obtain ⟨ha1, _⟩ := ha
      obtain ⟨hb1, _⟩ := hb
      subst ha1
      cases b with
      | nil => exact ⟨rfl, by intro r hr; cases hr⟩
      | cons s bs => cases hb1
  | cons r as ih =>
      obtain ⟨ha1, ha2⟩ := ha
      obtain ⟨hb1, hb2⟩ := hb
      subst ha1
      cases b with
      | nil => cases hb1
      | cons s bs =>
          have hlen : bs.length = as.length := by
            simpa using hb1
          have htail : isTensorOfShape (as.zipWith (fun r s => r ++ s) bs)
              as.length (p + q) :=
            ih ⟨rfl, fun x hx => ha2 x (List.mem_cons_of_mem _ hx)⟩
              ⟨hlen, fun x hx => hb2 x (List.mem_cons_of_mem _ hx)⟩
          refine ⟨by simpa using htail.1, ?_⟩
          intro x hx
          rcases List.mem_cons.mp hx with hx | hx
          · subst hx
            rw [List.length_append, ha2 r (List.mem_cons_self _ _),
              hb2 s (List.mem_cons_self _ _)]
          · exact htail.2 x hx

theorem pairwise_shape (f : List Rat → List Rat → Rat) (embs : List (List Rat)) :
    isTensorOfShape (embs.map (fun x => embs.map (fun y => f x y)))
      embs.length embs.length := by
  constructor
  · simp
  · intro r hr
    obtain ⟨x, _, rfl⟩ := List.mem_map.mp hr
    simp

/-! ### Claim theorems -/

/-- C1: for every fitted LCEMGP model with k distinct task/context indices in
its training data, the context covariance returned by `_eval_context_covar` is
the task covariance kernel evaluated pairwise on the model's task embeddings
and has shape [k, k]; in particular, on the test's training data with 2
contexts the result has shape [2, 2]. Fitting does not change shapes, so the
statement holds for every choice of learned weights and kernel (init, kern). -/
theorem C1_eval_context_covar_shape :
    (∀ (dt : DType) (ti : List Nat) (yv : Bool) (edl : Option (List Nat))
        (init : Nat → Nat → Nat → Rat) (kern : List Rat → List Rat → Rat),
      (mkLCEMGP dt ti yv edl none init kern)._eval_context_covar
          = (mkLCEMGP dt ti yv edl none init kern)._task_embeddings.map
              (fun x => (mkLCEMGP dt ti yv edl none init kern)._task_embeddings.map
                (fun y => (mkLCEMGP dt ti yv edl none init kern).taskCovar x y)) ∧
      isTensorOfShape ((mkLCEMGP dt ti yv edl none init kern)._eval_context_covar)
        ti.dedup.length ti.dedup.length) ∧
    isTensorOfShape ((mkLCEMGP DType.float [0, 0, 0, 0, 0, 1, 1, 1, 1, 1] true
        none none (fun _ _ _ => 0) (fun _ _ => 0))._eval_context_covar) 2 2 := by
  constructor
  · intro dt ti yv edl init kern
    refine ⟨rfl, ?_⟩
    have hlen : ((mkLCEMGP dt ti yv edl none init kern)._task_embeddings).length
        = ti.dedup.length := by
      rw [te_default]
      simp
    have h := pairwise_shape (mkLCEMGP dt ti yv edl none init kern).taskCovar
      ((mkLCEMGP dt ti yv edl none init kern)._task_embeddings)
    rw [hlen] at h
    exact h
  · decide

/-- C2: for every LCEMGP model, `_task_embeddings` returns a tensor with
exactly one embedding row per task; with the default construction (no
embs_dim_list, no context_emb_feature) the total embedding dimension is 1, so
the shape is [k, 1] where k is the number of distinct task indices. -/
theorem C2_task_embeddings_shape :
    ∀ (dt : DType) (ti : List Nat) (yv : Bool) (edl : Option (List Nat))
      (init : Nat → Nat → Nat → Rat) (kern : List Rat → List Rat → Rat),
      ((mkLCEMGP dt ti yv edl none init kern)._task_embeddings).length
          = (mkLCEMGP dt ti yv edl none init kern).numTasks ∧
      isTensorOfShape ((mkLCEMGP dt ti yv none none init kern)._task_embeddings)
        ti.dedup.length 1 := by
  intro dt ti yv edl init kern
  constructor
  · rw [te_default, mkLCEMGP_eq]
    simp
  · rw [te_default]
    exact shape_grid _ _ _ (fun i => by simp)

/-- C3: for every fitted LCEMGP model, `posterior` at new inputs returns a
GPyTorchPosterior whose distribution is a MultitaskMultivariateNormal over
all outputs; when called with output_indices selecting a single output, the
posterior's distribution is instead a single-output MultivariateNormal. -/
theorem C3_posterior_distribution_kinds :
    ∀ (m : LCEMGP) (n i : Nat),
      (m.posterior n none).distribution
          = GPDistribution.multitaskMultivariateNormal n m.numTasks ∧
      ((m.posterior n none).distribution).isMultitask = true ∧
      (m.posterior n (some [i])).distribution = GPDistribution.multivariateNormal n ∧
      ((m.posterior n (some [i])).distribution).isMultitask = false := by
  intro m n i
  refine ⟨rfl, rfl, ?_, ?_⟩ <;>
    simp [LCEMGP.posterior, GPDistribution.isMultitask]

/-- C4: the LCEMGP model is a contextual multi-task Gaussian process with
learned task embeddings: LCEMGP is (by the modelled class hierarchy) an
instance of MultiTaskGP, and every constructed LCEMGP holds one emb_layers
entry per categorical task feature — the default construction has exactly one
categorical task feature, and emb_layers has one layer per emb_dims entry. -/
theorem C4_lcemgp_class_and_layers :
    isInstanceOf ModelClass.lcemGP ModelClass.multiTaskGP = true ∧
    ∀ (dt : DType) (ti : List Nat) (yv : Bool) (edl : Option (List Nat))
      (cef : Option (List (List Rat)))
      (init : Nat → Nat → Nat → Rat) (kern : List Rat → List Rat → Rat),
      (mkLCEMGP dt ti yv edl cef init kern).emb_layers.length
          = (mkLCEMGP dt ti yv edl cef init kern).emb_dims.length ∧
      (mkLCEMGP dt ti yv edl cef init kern).emb_layers.length = 1 := by
  refine ⟨rfl, ?_⟩
  intro dt ti yv edl cef init kern
  rw [mkLCEMGP_eq]
  exact ⟨rfl, rfl⟩

/-- C5: both LCEMGP (with or without fixed observation noise train_Yvar) and
FixedNoiseLCEMGP can be fitted by constructing an ExactMarginalLogLikelihood
over the model's likelihood and calling fit_gpytorch_mll on it, and the
fitting procedure returns without error for both float and double dtypes
(the dtype and the hasTrainYvar flag are arbitrary here). -/
theorem C5_fit_succeeds :
    ∀ (dt : DType) (ti : List Nat) (yv : Bool) (edl : Option (List Nat))
      (cef : Option (List (List Rat)))
      (init : Nat → Nat → Nat → Rat) (kern : List Rat → List Rat → Rat),
      (fit_gpytorch_mll ⟨mkLCEMGP dt ti yv edl cef init kern⟩).isOk = true ∧
      (fit_gpytorch_mll ⟨(mkFixedNoiseLCEMGP dt ti edl cef init kern).2⟩).isOk
          = true := by
  intro dt ti yv edl cef init kern
  exact ⟨rfl, rfl⟩

/-- C9: constructing a FixedNoiseLCEMGP always emits a DeprecationWarning
whose message mentions "FixedNoiseLCEMGP", and despite the warning the
constructor still returns a usable model: fitting it succeeds and evaluating
it on test inputs yields a (single-output) MultivariateNormal. -/
theorem C9_fixed_noise_deprecation :
    ∀ (dt : DType) (ti : List Nat) (edl : Option (List Nat))
      (cef : Option (List (List Rat)))
      (init : Nat → Nat → Nat → Rat) (kern : List Rat → List Rat → Rat)
      (testX : List (List Rat)),
      (mkFixedNoiseLCEMGP dt ti edl cef init kern).1.category
          = "DeprecationWarning" ∧
      containsSubstr (mkFixedNoiseLCEMGP dt ti edl cef init kern).1.message
          "FixedNoiseLCEMGP" = true ∧
      (fit_gpytorch_mll ⟨(mkFixedNoiseLCEMGP dt ti edl cef init kern).2⟩).isOk
          = true ∧
      (mkFixedNoiseLCEMGP dt ti edl cef init kern).2.forward testX
          = GPDistribution.multivariateNormal testX.length ∧
      GPDistribution.isMultitask
          ((mkFixedNoiseLCEMGP dt ti edl cef init kern).2.forward testX) = false := by
  intro dt ti edl cef init kern testX
  have hc : containsSubstr fixedNoiseLCEMGPDeprecationWarning.message
      "FixedNoiseLCEMGP" = true := by decide
  exact ⟨rfl, hc, rfl, rfl, rfl⟩

/-- C10: embedding-dimension composition. When an LCEMGP is constructed with
embs_dim_list [e] for its single categorical task feature and a pre-trained
context_emb_feature of dimension q (one row per task), its emb_dims equals
[(numTasks, e)] and `_task_embeddings` returns a tensor of shape
[numTasks, e + q] — the learned embedding concatenated with the pre-trained
feature; without these arguments, context_emb_feature is none and the
embedding dimension defaults to 1. -/
theorem C10_embedding_dim_composition :
    ∀ (dt : DType) (ti : List Nat) (yv : Bool) (e q : Nat)
      (cef : List (List Rat))
      (init : Nat → Nat → Nat → Rat) (kern : List Rat → List Rat → Rat),
      isTensorOfShape cef ti.dedup.length q →
      (mkLCEMGP dt ti yv (some [e]) (some cef) init kern).emb_dims
          = [(ti.dedup.length, e)] ∧
      isTensorOfShape
        ((mkLCEMGP dt ti yv (some [e]) (some cef) init kern)._task_embeddings)
        ti.dedup.length (e + q) ∧
      (mkLCEMGP dt ti yv none none init kern).context_emb_feature = none ∧
      (mkLCEMGP dt ti yv none none init kern).emb_dims
          = [(ti.dedup.length, 1)] := by
  intro dt ti yv e q cef init kern hcef
  refine ⟨by rw [mkLCEMGP_eq]; rfl, ?_, by rw [mkLCEMGP_eq],
    by rw [mkLCEMGP_eq]; rfl⟩
  rw [te_cef]
  exact zipWith_append_shape (shape_grid _ _ _ (fun i => by simp)) hcef

/-- C10 witness: the theorem applied to the test's concrete construction:
10 training points over 2 contexts, embs_dim_list [2] and a pre-trained
context_emb_feature of shape [2, 1] give emb_dims [(2, 2)] and task
embeddings of shape [2, 3]. -/
theorem C10_embedding_dim_composition_witness :
    isTensorOfShape [[(1 : Rat)/5], [(3 : Rat)/10]] 2 1 ∧
    ((mkLCEMGP DType.float [0, 0, 0, 0, 0, 1, 1, 1, 1, 1] false (some [2])
        (some [[(1 : Rat)/5], [(3 : Rat)/10]]) (fun _ _ _ => 0)
        (fun _ _ => 0)).emb_dims = [(2, 2)] ∧
      isTensorOfShape
        ((mkLCEMGP DType.float [0, 0, 0, 0, 0, 1, 1, 1, 1, 1] false (some [2])
          (some [[(1 : Rat)/5], [(3 : Rat)/10]]) (fun _ _ _ => 0)
          (fun _ _ => 0))._task_embeddings) 2 3 ∧
      (mkLCEMGP DType.float [0, 0, 0, 0, 0, 1, 1, 1, 1, 1] false none none
        (fun _ _ _ => 0) (fun _ _ => 0)).context_emb_feature = none ∧
      (mkLCEMGP DType.float [0, 0, 0, 0, 0, 1, 1, 1, 1, 1] false none none
        (fun _ _ _ => 0) (fun _ _ => 0)).emb_dims = [(2, 1)]) :=
  ⟨by decide,
   C10_embedding_dim_composition DType.float [0, 0, 0, 0, 0, 1, 1, 1, 1, 1]
     false 2 1 [[(1 : Rat)/5], [(3 : Rat)/10]] (fun _ _ _ => 0) (fun _ _ => 0)
     (by decide)⟩

/-- C6: the multi-objective acquisition package publicly exports every
acquisition-function family named by the spec: expected hypervolume
improvement (`ExpectedHypervolumeImprovement`, `qExpectedHypervolumeImprovement`,
`qNoisyExpectedHypervolumeImprovement`), knowledge gradient
(`qHypervolumeKnowledgeGradient`, `qMultiFidelityHypervolumeKnowledgeGradient`),
max-value entropy search (`qMultiObjectiveMaxValueEntropy`), and objective
transforms (`IdentityMCMultiOutputObjective`, `WeightedMCMultiOutputObjective`,
`UnstandardizeMCMultiOutputObjective`): each name is a member of `allList`,
the embedding of the module's `__all__`. -/
theorem C6_all_families_exported :
    "ExpectedHypervolumeImprovement" ∈ allList ∧
    "qExpectedHypervolumeImprovement" ∈ allList ∧
    "qNoisyExpectedHypervolumeImprovement" ∈ allList ∧
    "qHypervolumeKnowledgeGradient" ∈ allList ∧
    "qMultiFidelityHypervolumeKnowledgeGradient" ∈ allList ∧
    "qMultiObjectiveMaxValueEntropy" ∈ allList ∧
    "IdentityMCMultiOutputObjective" ∈ allList ∧
    "WeightedMCMultiOutputObjective" ∈ allList ∧
    "UnstandardizeMCMultiOutputObjective" ∈ allList := by
  decide

/-- C7: the hypervolume/partitioning utilities
`prune_inferior_points_multi_objective` and `get_default_partitioning_alpha`
are imported from the `utils` submodule of the package and are listed in the
package's public export list `__all__`. -/
theorem C7_utils_imported_and_exported :
    (∃ p ∈ moduleImports,
        p.1 = "botorch.acquisition.multi_objective.utils" ∧
        "prune_inferior_points_multi_objective" ∈ p.2 ∧
        "get_default_partitioning_alpha" ∈ p.2) ∧
    "prune_inferior_points_multi_objective" ∈ allList ∧
    "get_default_partitioning_alpha" ∈ allList := by
  decide

/-- C8 counterexample: the claim says the module's `__all__` list has 14
names, but the `__all__` of
`botorch/acquisition/multi_objective/__init__.py` has 15 names. -/
theorem C8_counterexample_fifteen_names :
    allList.length ≠ 14 ∧ allList.length = 15 := by
  decide

/-- C8 (amended): export-list consistency invariant: every name in the
module's `__all__` list (15 names) is bound by exactly one of the module's
own imports, and every public class or function imported by the module
appears in `__all__` — there is no dangling export and no imported public
symbol omitted from `__all__`. -/
theorem C8_export_consistency :
    exportConsistent = true ∧ allList.length = 15 := by
  decide

end Botorch
